import Mathlib

/-!
Verification of the UAP discovery-and-invocation core.

This file gives a shallow embedding of the two agent tools in
`src/agent/agent.py` (`uap_discover` and `uap_http`) and of the relevant
endpoint handlers of the demo hotel service in `src/app/main.py`
(`booking_module`, `search_rooms`, `cancel_booking`), and proves or refutes
the frozen claims about them.

Modelling conventions:
- HTTP is modelled by an oracle (a "world"): a function from the request to
  an optional response page. A `none` answer models a transport failure
  (an `httpx` exception such as `ConnectError` or `UnsupportedProtocol`);
  in particular a world may, and in the counterexamples does, answer `none`
  for a relative URL string, because `httpx.Client.get` with no configured
  base URL raises `UnsupportedProtocol` for such an argument.
- A response page carries its HTTP status, its `content-type` header, its
  raw text, and the result of attempting to parse its body as JSON
  (`none` models a body that is not valid JSON, where `resp.json()` would
  raise `JSONDecodeError`).
- Python exceptions become `Except.error` values of type `UapError`.
  `runtimeError` stands for the untyped Python exceptions (`TypeError`,
  `AttributeError`, `KeyError`) raised when a fetched document does not
  have the shape the tool code assumes.
- The Python tools return strings. `uap_http` is modelled with its string
  result (the JSON branch returns `json.dumps` of the parsed value; the
  rendering `Json.dumps` below differs from the `indent=2` layout of the
  source only in whitespace and in not escaping special characters inside
  string literals, which no claim depends on). `uap_discover` serializes
  its result with `json.dumps` or an f-string message; we model the
  information content of that result with the `DiscoverResult` type.
-/

namespace Uap

/-- JSON values, as produced by `resp.json()` in the Python source. -/
inductive Json where
  | null
  | bool (b : Bool)
  | num (n : Int)
  | str (s : String)
  | arr (elems : List Json)
  | obj (fields : List (String × Json))

/-- Lookup of a key in the field list of a JSON object, mirroring
`dict.get`: `none` when the key is absent. Python dict keys are unique, so
first match suffices. -/
def jsonGet (fields : List (String × Json)) (key : String) : Option Json :=
  match fields with
  | [] => none
  | (k, v) :: rest => if k = key then some v else jsonGet rest key

/-- Lookup mirroring `doc.get(key)` on a JSON object; `none` for a
non-object or an absent key. -/
def Json.getKey : Json → String → Option Json
  | Json.obj fields, key => jsonGet fields key
  | _, _ => none

mutual

/-- Rendering of a JSON value to a string, modelling `json.dumps`
(whitespace layout and string escaping are not modelled; no claim depends
on them). -/
def Json.dumps : Json → String
  | Json.null => ("null")
  | Json.bool true => ("true")
  | Json.bool false => ("false")
  | Json.num n => toString n
  | Json.str s => ("\"") ++ s ++ ("\"")
  | Json.arr xs => ("[") ++ dumpsList xs ++ ("]")
  | Json.obj fs => ("\x7b") ++ dumpsFields fs ++ ("\x7d")

/-- Rendering of the element list of a JSON array. -/
def dumpsList : List Json → String
  | [] => ("")
  | [j] => Json.dumps j
  | j :: j2 :: t => Json.dumps j ++ (", ") ++ dumpsList (j2 :: t)

/-- Rendering of the field list of a JSON object. -/
def dumpsFields : List (String × Json) → String
  | [] => ("")
  | [(k, v)] => ("\"") ++ k ++ ("\": ") ++ Json.dumps v
  | (k, v) :: kv :: t => ("\"") ++ k ++ ("\": ") ++ Json.dumps v ++ (", ") ++ dumpsFields (kv :: t)

end

/-- Typed failures of the two tools. `invalidArgument` is the explicit
`raise ValueError` of the source; `networkError` a transport-level `httpx`
exception; `httpError` the `HTTPStatusError` of `raise_for_status` (the
exception also carries the response body, which no claim inspects);
`protocolError` a `JSONDecodeError` from `resp.json()`; `runtimeError` an
untyped Python exception on an ill-shaped document. -/
inductive UapError where
  | invalidArgument (msg : String)
  | networkError
  | httpError (status : Nat)
  | protocolError
  | runtimeError
deriving DecidableEq

/-- An HTTP response as the tools observe it: status code, the
`content-type` header (empty string when the header is absent, mirroring
`resp.headers.get("content-type", "")`), the raw text of the body, and the
result of parsing the body as JSON. -/
structure Page where
  status : Nat
  contentType : String
  text : String
  json : Option Json

/-- The world a plain GET request runs against: URL string to optional
response. `none` models a transport failure. -/
abbrev GetWorld := String → Option Page

/-- The request `uap_http` hands to `client.request(method, url,
json=json_body, params=params)`. -/
structure HttpRequest where
  method : String
  url : String
  jsonBody : Option Json
  params : Option (List (String × String))

/-- The world an arbitrary HTTP request runs against. -/
abbrev HttpWorld := HttpRequest → Option Page

/-- Equality decision for `Except` results over decidable components. -/
instance instDecEqExcept {ε α : Type} [DecidableEq ε] [DecidableEq α] :
    DecidableEq (Except ε α) := fun a b =>
  match a, b with
  | Except.ok x, Except.ok y =>
    if h : x = y then isTrue (by rw [h])
    else isFalse (by intro hh; injection hh; contradiction)
  | Except.error x, Except.error y =>
    if h : x = y then isTrue (by rw [h])
    else isFalse (by intro hh; injection hh; contradiction)
  | Except.ok _, Except.error _ => isFalse (fun hh => Except.noConfusion hh)
  | Except.error _, Except.ok _ => isFalse (fun hh => Except.noConfusion hh)

/-- Success predicate of `httpx.Response.is_success`: `raise_for_status()`
returns normally exactly for 2xx statuses and raises `HTTPStatusError`
otherwise. -/
def isSuccess (status : Nat) : Bool :=
  decide (200 ≤ status) && decide (status ≤ 299)

/-- Fetch a URL and parse the body as JSON: `resp = client.get(url);
resp.raise_for_status(); resp.json()`. -/
def getJson (w : GetWorld) (url : String) : Except UapError Json :=
  match w url with
  | none => Except.error (UapError.networkError)
  | some resp =>
    if isSuccess resp.status then
      match resp.json with
      | some doc => Except.ok doc
      | none => Except.error (UapError.protocolError)
    else Except.error (UapError.httpError resp.status)

/-- Removal of all trailing slash characters, mirroring
`base_url.rstrip("/")`. -/
def rstripSlash (s : String) : String :=
  ⟨(s.data.reverse.dropWhile (fun c => c = '/')).reverse⟩

/-- The URL of the root discovery document:
`f"⟨stripped base⟩/.well-known/uap"`. -/
def wellKnownUrl (base_url : String) : String :=
  rstripSlash base_url ++ ("/.well-known/uap")

/-- Extraction of `root_doc.get("modules", [])`. A root document that is
not a JSON object raises `AttributeError` in Python; a `modules` value that
is not a list makes the subsequent iteration raise. Both are modelled as
`runtimeError` (degenerate iterables such as an empty string are not
modelled). -/
def modulesOf (root : Json) : Except UapError (List Json) :=
  match root with
  | Json.obj fields =>
    match jsonGet fields ("modules") with
    | none => Except.ok []
    | some (Json.arr xs) => Except.ok xs
    | some _ => Except.error (UapError.runtimeError)
  | _ => Except.error (UapError.runtimeError)

/-- Test of `mod.get("id") == module_id`: true exactly when the `id`
field holds the string `mid` (a missing field gives `None`, and no
non-string JSON value compares equal to a Python string). -/
def idMatches (m : Json) (mid : String) : Bool :=
  match Json.getKey m ("id") with
  | some (Json.str s) => s = mid
  | _ => false

/-- Lookup of `next((mod for mod in modules if mod.get("id") == module_id),
None)`. Each element visited before a match must support `.get`, i.e. be an
object; otherwise Python raises `AttributeError`. -/
def findModule (modules : List Json) (mid : String) : Except UapError (Option Json) :=
  match modules with
  | [] => Except.ok none
  | m :: rest =>
    match m with
    | Json.obj fs =>
      if idMatches (Json.obj fs) mid then Except.ok (some (Json.obj fs))
      else findModule rest mid
    | _ => Except.error (UapError.runtimeError)

/-- The list comprehension `[mod.get("id") for mod in modules]`. -/
def moduleIds (modules : List Json) : Except UapError (List (Option Json)) :=
  match modules with
  | [] => Except.ok []
  | m :: rest =>
    match m with
    | Json.obj fs =>
      match moduleIds rest with
      | Except.ok ids => Except.ok (jsonGet fs ("id") :: ids)
      | Except.error e => Except.error e
    | _ => Except.error (UapError.runtimeError)

/-- The subscript `module["href"]` followed by its use as a URL: a missing
key raises `KeyError`, and a non-string value is rejected by `httpx`. -/
def moduleHref (m : Json) : Except UapError String :=
  match m with
  | Json.obj fs =>
    match jsonGet fs ("href") with
    | some (Json.str h) => Except.ok h
    | some _ => Except.error (UapError.runtimeError)
    | none => Except.error (UapError.runtimeError)
  | _ => Except.error (UapError.runtimeError)

/-- The information content of the string `uap_discover` returns:
the root document alone, the module-not-found message together with the
available ids it embeds, or the `(root, module)` pair. -/
inductive DiscoverResult where
  | rootOnly (root : Json)
  | moduleNotFound (module_id : String) (available : List (Option Json))
  | both (root : Json) (module_doc : Json)

/-- The body of `uap_discover` after the well-known URL has been composed:
fetch and parse the root document, then (if a non-empty module id was
given) look the module up, and either report the available ids or fetch
the document at the verbatim `module["href"]` string. -/
def discoverRoot (root_url : String) (module_id : Option String) (w : GetWorld) :
    Except UapError DiscoverResult :=
  match getJson w root_url with
  | Except.error e => Except.error e
  | Except.ok root_doc =>
    match module_id with
    | none => Except.ok (DiscoverResult.rootOnly root_doc)
    | some mid =>
      if mid = ("") then Except.ok (DiscoverResult.rootOnly root_doc)
      else
        match modulesOf root_doc with
        | Except.error e => Except.error e
        | Except.ok ms =>
          match findModule ms mid with
          | Except.error e => Except.error e
          | Except.ok none =>
            match moduleIds ms with
            | Except.error e => Except.error e
            | Except.ok ids => Except.ok (DiscoverResult.moduleNotFound mid ids)
          | Except.ok (some m) =>
            match moduleHref m with
            | Except.error e => Except.error e
            | Except.ok href =>
              match getJson w href with
              | Except.error e => Except.error e
              | Except.ok module_doc => Except.ok (DiscoverResult.both root_doc module_doc)

/-- The tool `uap_discover` of `src/agent/agent.py`: reject an empty base
URL, strip trailing slashes, fetch `/.well-known/uap`, and process the
optional module id. The `if not module_id` check of the source treats both
`None` and the empty string as absent; both cases return the root document
alone. -/
def uap_discover (base_url : String) (module_id : Option String) (w : GetWorld) :
    Except UapError DiscoverResult :=
  if base_url = ("") then Except.error (UapError.invalidArgument ("base_url is required"))
  else discoverRoot (wellKnownUrl base_url) module_id w

/-- Absolute-URL test used only by the spec-following variant below. -/
def isAbsoluteUrl (href : String) : Bool :=
  (("http://") : String).data.isPrefixOf href.data ||
    (("https://") : String).data.isPrefixOf href.data

/-- Resolution of a module href against the base URL, written from the
words of the spec ("fetches `module.href` (resolved against the base URL
if relative)"): an absolute href is used as is, a relative one is joined
to the stripped base URL. -/
def resolveHref (base_url href : String) : String :=
  if isAbsoluteUrl href then href else rstripSlash base_url ++ ("/") ++ href

/-- Variant of `discoverRoot` following the words of the spec: identical
except that the module document is fetched at `resolveHref base_url href`
rather than at the verbatim `href` string. Written for comparison with the
code; `uap_discover` is the embedding of the source. -/
def discoverRootSpec (base_url root_url : String) (module_id : Option String) (w : GetWorld) :
    Except UapError DiscoverResult :=
  match getJson w root_url with
  | Except.error e => Except.error e
  | Except.ok root_doc =>
    match module_id with
    | none => Except.ok (DiscoverResult.rootOnly root_doc)
    | some mid =>
      if mid = ("") then Except.ok (DiscoverResult.rootOnly root_doc)
      else
        match modulesOf root_doc with
        | Except.error e => Except.error e
        | Except.ok ms =>
          match findModule ms mid with
          | Except.error e => Except.error e
          | Except.ok none =>
            match moduleIds ms with
            | Except.error e => Except.error e
            | Except.ok ids => Except.ok (DiscoverResult.moduleNotFound mid ids)
          | Except.ok (some m) =>
            match moduleHref m with
            | Except.error e => Except.error e
            | Except.ok href =>
              match getJson w (resolveHref base_url href) with
              | Except.error e => Except.error e
              | Except.ok module_doc => Except.ok (DiscoverResult.both root_doc module_doc)

/-- Spec-following variant of `uap_discover`, for the refinement
comparison: resolves a relative module href against the base URL. -/
def uap_discover_spec (base_url : String) (module_id : Option String) (w : GetWorld) :
    Except UapError DiscoverResult :=
  if base_url = ("") then Except.error (UapError.invalidArgument ("base_url is required"))
  else discoverRootSpec base_url (wellKnownUrl base_url) module_id w

/-- Uppercasing of a string, mirroring `str.upper()` on ASCII method
names. -/
def pyUpper (s : String) : String :=
  ⟨s.data.map Char.toUpper⟩

/-- The whitespace set of Python `str.strip()`. -/
def isPySpace (c : Char) : Bool :=
  c = ' ' || c = '\t' || c = '\n' || c = '\r' || c = '\x0b' || c = '\x0c'

/-- Removal of leading and trailing whitespace, mirroring `str.strip()`. -/
def pyStrip (s : String) : String :=
  ⟨((s.data.dropWhile isPySpace).reverse.dropWhile isPySpace).reverse⟩

/-- The method normalization `method.upper().strip()` of `uap_http`. -/
def normalizeMethod (method : String) : String :=
  pyStrip (pyUpper method)

/-- Containment of `pat` in `hay`, mirroring the Python substring test
`pat in hay`. -/
def infixAux (pat : List Char) : List Char → Bool
  | [] => pat.isEmpty
  | c :: t => pat.isPrefixOf (c :: t) || infixAux pat t

/-- String containment: `strContains hay pat` is the Python `pat in hay`. -/
def strContains (hay pat : String) : Bool :=
  infixAux pat.data hay.data

/-- Processing of the response of `uap_http` once the request has been
made: `raise_for_status()`, then the content-type dispatch between
`json.dumps(resp.json(), indent=2)` and `resp.text`. -/
def processResponse (r : Option Page) : Except UapError String :=
  match r with
  | none => Except.error (UapError.networkError)
  | some resp =>
    if isSuccess resp.status then
      if strContains resp.contentType ("application/json") then
        match resp.json with
        | some j => Except.ok (Json.dumps j)
        | none => Except.error (UapError.protocolError)
      else Except.ok resp.text
    else Except.error (UapError.httpError resp.status)

/-- The tool `uap_http` of `src/agent/agent.py`: reject an empty method or
URL, normalize the method, perform exactly one request with the URL passed
through verbatim, and process the response. -/
def uap_http (method url : String) (json_body : Option Json)
    (params : Option (List (String × String))) (w : HttpWorld) : Except UapError String :=
  if method = ("") ∨ url = ("") then
    Except.error (UapError.invalidArgument ("method and url are required"))
  else processResponse (w ⟨normalizeMethod method, url, json_body, params⟩)

/-- Recognizer for the `invalidArgument` failure of a tool result. -/
def isInvalidArgumentResult : Except UapError String → Bool
  | Except.error (UapError.invalidArgument _) => true
  | _ => false

/-- The opening brace character, written by code point to keep brace
characters out of the file. -/
def lbrace : Char := Char.ofNat 123

/-- The closing brace character. -/
def rbrace : Char := Char.ofNat 125

/-- Detection of an unresolved `\x7bname\x7d` placeholder in a URL: an
opening brace with a closing brace somewhere after it. -/
def hasPlaceholder (url : String) : Bool :=
  (url.data.dropWhile (fun c => c ≠ lbrace)).contains rbrace

end Uap

namespace Hotel

open Uap

/-- A room record of the demo hotel service (`src/app/main.py`). -/
structure Room where
  id : String
  room_type : String
  price : Int
  features : List String
deriving DecidableEq

/-- The fixed `ROOMS` fixture of `src/app/main.py`. -/
def ROOMS : List Room :=
  [⟨("room-101"), ("queen"), 129, [("wifi"), ("breakfast")]⟩,
   ⟨("room-202"), ("king"), 159, [("wifi"), ("ocean_view")]⟩,
   ⟨("room-303"), ("suite"), 219, [("wifi"), ("breakfast"), ("balcony")]⟩]

/-- Failures an endpoint of the demo service can produce:
`validationError` is the 422 FastAPI returns when a declared query
constraint (here `Query(None, ge=1)`) rejects the request before the
handler runs; `httpException` is an explicit `raise HTTPException`. -/
inductive HttpFailure where
  | validationError
  | httpException (status : Nat) (detail : String)
deriving DecidableEq

/-- The `GET /rooms/search` endpoint of `src/app/main.py`: FastAPI first
validates `guests` against `ge=1`; the handler body then ignores all three
query parameters and returns the full `ROOMS` list. -/
def search_rooms (check_in check_out : Option String) (guests : Option Int) :
    Except HttpFailure (List Room) :=
  match check_in, check_out, guests with
  | _, _, some g => if g < 1 then Except.error (HttpFailure.validationError) else Except.ok ROOMS
  | _, _, none => Except.ok ROOMS

/-- Acceptance predicate of the `guests` query parameter: absent, or an
integer at least 1 (`Query(None, ge=1)`). -/
def guestsAccepted : Option Int → Bool
  | none => true
  | some g => decide (1 ≤ g)

/-- A booking record of the demo hotel service. -/
structure Booking where
  id : String
  room_id : String
  check_in : String
  check_out : String
  guest_name : String
  status : String
deriving DecidableEq

/-- The process-wide `BOOKINGS` dict, modelled as a map from booking id to
record (insertion order is not observed by any claim). -/
abbrev BookingStore := String → Option Booking

/-- The pydantic `booking.copy(update=...)` with a new `status`: every
other field is copied unchanged. -/
def withStatus (b : Booking) (s : String) : Booking :=
  ⟨b.id, b.room_id, b.check_in, b.check_out, b.guest_name, s⟩

/-- The `POST /bookings/.../cancel` handler of `src/app/main.py`, with the
store passed explicitly: 404 when the id is absent, otherwise a copy of
the booking with `status` set to `canceled` is stored back under the same
id and returned. -/
def cancel_booking (bookings : BookingStore) (booking_id : String) :
    Except HttpFailure (Booking × BookingStore) :=
  match bookings booking_id with
  | none => Except.error (HttpFailure.httpException 404 ("Booking not found"))
  | some booking =>
    Except.ok (withStatus booking ("canceled"),
      fun k => if k = booking_id then some (withStatus booking ("canceled")) else bookings k)

/-- First projection of a successful `cancel_booking` result. -/
def canceledBookingOf : Except HttpFailure (Booking × BookingStore) → Option Booking
  | Except.ok (b, _) => some b
  | _ => none

/-- Lookup in the store left behind by a successful `cancel_booking`. -/
def storeAfterAt : Except HttpFailure (Booking × BookingStore) → String → Option Booking
  | Except.ok (_, store), k => store k
  | _, _ => none

/-- The module document served by the `booking_module` handler of
`src/app/main.py` for a given externally visible base URL (the handler
computes it as `str(request.base_url).rstrip("/")`). The `booking.cancel`
href carries the literal `\x7bbooking_id\x7d` placeholder of the f-string
`f"..."` with doubled braces. -/
def booking_module (base_url : String) : Json :=
  Json.obj
    [(("name"), Json.str ("Booking")),
     (("openapi"), Json.str (base_url ++ ("/openapi.json"))),
     (("actions"), Json.arr
       [Json.obj
          [(("id"), Json.str ("rooms.list")),
           (("description"), Json.str ("List all rooms")),
           (("method"), Json.str ("GET")),
           (("href"), Json.str (base_url ++ ("/rooms")))],
        Json.obj
          [(("id"), Json.str ("rooms.search")),
           (("description"), Json.str ("Search available rooms")),
           (("method"), Json.str ("GET")),
           (("href"), Json.str (base_url ++ ("/rooms/search")))],
        Json.obj
          [(("id"), Json.str ("booking.create")),
           (("description"), Json.str ("Create a booking")),
           (("method"), Json.str ("POST")),
           (("href"), Json.str (base_url ++ ("/bookings"))),
           (("confirm"), Json.str ("user"))],
        Json.obj
          [(("id"), Json.str ("booking.cancel")),
           (("description"), Json.str ("Cancel a booking")),
           (("method"), Json.str ("POST")),
           (("href"), Json.str (base_url ++ ("/bookings/\x7bbooking_id\x7d/cancel"))),
           (("confirm"), Json.str ("user"))]])]

/-- The `booking.cancel` href published by `booking_module`, with its
placeholder unsubstituted. -/
def cancelHrefAt (base_url : String) : String :=
  base_url ++ ("/bookings/\x7bbooking_id\x7d/cancel")

end Hotel

namespace Uap

/-- Modelled from the spec: the repository exposes no `requiresConfirmation`
function in code; the confirmation gate exists only as the sentence about
`confirm: user` in the system prompt built by `build_agent`
(`src/agent/agent.py`). The record follows the Action shape of the spec,
with `confirm` optional so that an absent field and a non-`user` value are
both representable. -/
structure Action where
  id : String
  description : String
  method : String
  href : String
  confirm : Option String
deriving DecidableEq

/-- Modelled from the spec: the pure confirmation gate
`requiresConfirmation(action)`, true exactly when the `confirm` field of
the action is the string `user`. -/
def requiresConfirmation (action : Action) : Bool :=
  decide (action.confirm = some ("user"))

/-- A root-document module entry with an absolute href, as the demo hotel
service publishes it. -/
def hotelModuleEntry : Json :=
  Json.obj
    [(("id"), Json.str ("booking")),
     (("description"), Json.str ("Room availability and booking")),
     (("href"), Json.str ("http://svc/.well-known/booking.json"))]

/-- A concrete root document matching the `uap_root` handler of the demo
hotel service at base URL `http://svc`. -/
def hotelRoot : Json :=
  Json.obj
    [(("name"), Json.str ("Example Hotel")),
     (("modules"), Json.arr [hotelModuleEntry])]

/-- A world serving the hotel root document and the booking module
document at their absolute URLs; every other URL fails at transport
level. -/
def hotelWorld : GetWorld := fun url =>
  if url = ("http://svc/.well-known/uap") then
    some ⟨200, ("application/json"), (""), some hotelRoot⟩
  else if url = ("http://svc/.well-known/booking.json") then
    some ⟨200, ("application/json"), (""), some (Hotel.booking_module ("http://svc"))⟩
  else none

/-- A root document whose single module entry carries a relative href. -/
def relRootDoc : Json :=
  Json.obj
    [(("name"), Json.str ("X")),
     (("modules"), Json.arr
       [Json.obj
          [(("id"), Json.str ("booking")),
           (("href"), Json.str ("booking.json"))]])]

/-- A module document for the relative-href scenario. -/
def relModuleDoc : Json :=
  Json.obj [(("name"), Json.str ("Booking"))]

/-- A world for the relative-href scenario: the root document and the
RESOLVED module URL are served; the bare relative string `booking.json`
is not a fetchable URL (httpx raises `UnsupportedProtocol` for it), which
the world models by answering `none`. -/
def relWorld : GetWorld := fun url =>
  if url = ("http://svc/.well-known/uap") then
    some ⟨200, ("application/json"), (""), some relRootDoc⟩
  else if url = ("http://svc/booking.json") then
    some ⟨200, ("application/json"), (""), some relModuleDoc⟩
  else none

/-- The booking object the demo service returns from `POST /bookings`. -/
def exBookingJson : Json :=
  Json.obj
    [(("id"), Json.str ("b-1")),
     (("room_id"), Json.str ("room-101")),
     (("check_in"), Json.str ("2024-01-01")),
     (("check_out"), Json.str ("2024-01-02")),
     (("guest_name"), Json.str ("A")),
     (("status"), Json.str ("confirmed"))]

/-- The request body of the booking-creation scenario. -/
def exPostBody : Json :=
  Json.obj
    [(("room_id"), Json.str ("room-101")),
     (("check_in"), Json.str ("2024-01-01")),
     (("check_out"), Json.str ("2024-01-02")),
     (("guest_name"), Json.str ("A"))]

/-- A collaborator world: `POST http://svc/bookings` answers with the
booking object under a JSON content type, `GET http://svc/plain` answers
with plain text. -/
def svcWorld : HttpWorld := fun r =>
  if r.method = ("POST") && r.url = ("http://svc/bookings") then
    some ⟨200, ("application/json"), (""), some exBookingJson⟩
  else if r.method = ("GET") && r.url = ("http://svc/plain") then
    some ⟨200, ("text/plain; charset=utf-8"), ("hello"), none⟩
  else none

/-- A world whose only endpoint answers with status 404. -/
def notFoundWorld : HttpWorld := fun r =>
  if r.method = ("GET") && r.url = ("http://svc/bookings/nope") then
    some ⟨404, ("application/json"), (""),
      some (Json.obj [(("detail"), Json.str ("Booking not found"))])⟩
  else none

/-- A world answering the cancel URL that still carries its literal
placeholder: the demo service matches the path, finds no such booking id,
and answers 404 — no `InvalidArgument` anywhere. -/
def phWorld : HttpWorld := fun r =>
  if r.method = ("POST") && r.url = Hotel.cancelHrefAt ("http://svc") then
    some ⟨404, ("application/json"), (""),
      some (Json.obj [(("detail"), Json.str ("Booking not found"))])⟩
  else none

end Uap

namespace Hotel

/-- A concrete confirmed booking. -/
def exBooking1 : Booking :=
  ⟨("bk-1"), ("room-101"), ("2024-01-01"), ("2024-01-02"), ("A"), ("confirmed")⟩

/-- A second, unrelated booking in the same store. -/
def exBooking2 : Booking :=
  ⟨("bk-2"), ("room-202"), ("2024-02-01"), ("2024-02-02"), ("B"), ("confirmed")⟩

/-- A concrete booking store holding the two bookings. -/
def exStore : BookingStore := fun k =>
  if k = ("bk-1") then some exBooking1
  else if k = ("bk-2") then some exBooking2
  else none

end Hotel

/-! ## Helper lemmas -/

namespace Uap

theorem head?_dropWhile_ne (p : Char → Bool) (c : Char) (hc : p c = true) :
    (l : List Char) → (l.dropWhile p).head? ≠ some c
  | [] => by simp [List.dropWhile]
  | a :: t => by
    rw [List.dropWhile]
    cases hpa : p a with
    | true => simpa using head?_dropWhile_ne p c hc t
    | false =>
      simp only [List.head?_cons, ne_eq, Option.some.injEq]
      intro h
      rw [h, hc] at hpa
      exact Bool.noConfusion hpa

theorem rstripSlash_no_trailing (s : String) :
    ((rstripSlash s).data).getLast? ≠ some ('/') := by
  have h1 : (rstripSlash s).data
      = (s.data.reverse.dropWhile (fun c => decide (c = ('/')))).reverse := rfl
  rw [h1, List.getLast?_reverse]
  exact head?_dropWhile_ne _ _ (by decide) _

theorem wellKnownUrl_not_double_slash (base_url t : String) :
    wellKnownUrl base_url ≠ t ++ ("//.well-known/uap") := by
  intro h
  have hd := congrArg String.data h
  rw [wellKnownUrl] at hd
  rw [String.data_append, String.data_append] at hd
  have hsplit : (("//.well-known/uap") : String).data
      = ('/') :: (("/.well-known/uap") : String).data := rfl
  rw [hsplit] at hd
  have hd2 : (rstripSlash base_url).data ++ (("/.well-known/uap") : String).data
      = (t.data ++ [('/')]) ++ (("/.well-known/uap") : String).data := by
    rw [hd]; simp
  have hcancel := List.append_cancel_right hd2
  have hlast := rstripSlash_no_trailing base_url
  rw [hcancel] at hlast
  rw [List.getLast?_concat] at hlast
  exact hlast rfl

theorem findModule_eq_none (mid : String) :
    (ms : List Json) → (∀ m ∈ ms, ∃ fs, m = Json.obj fs) →
    (∀ m ∈ ms, idMatches m mid = false) →
    findModule ms mid = Except.ok none
  | [], _, _ => rfl
  | m :: t, hobj, habsent => by
    obtain ⟨fs, rfl⟩ := hobj _ (List.mem_cons_self m t)
    have hid := habsent _ (List.mem_cons_self _ t)
    rw [findModule, hid]
    simp only [Bool.false_eq_true, if_false]
    exact findModule_eq_none mid t
      (fun x hx => hobj x (List.mem_cons_of_mem _ hx))
      (fun x hx => habsent x (List.mem_cons_of_mem _ hx))

theorem moduleIds_eq_map :
    (ms : List Json) → (∀ m ∈ ms, ∃ fs, m = Json.obj fs) →
    moduleIds ms = Except.ok (ms.map (fun m => Json.getKey m ("id")))
  | [], _ => rfl
  | m :: t, hobj => by
    obtain ⟨fs, rfl⟩ := hobj _ (List.mem_cons_self m t)
    rw [moduleIds, moduleIds_eq_map t (fun x hx => hobj x (List.mem_cons_of_mem _ hx))]
    rfl

theorem isSuccess_eq_false_of_error (s : Nat) (h : 400 ≤ s) : isSuccess s = false := by
  simp only [isSuccess, Bool.and_eq_false_iff, decide_eq_false_iff_not, not_le]
  omega

theorem processResponse_not_invalidArgument (r : Option Page) :
    isInvalidArgumentResult (processResponse r) = false := by
  match r with
  | none => rfl
  | some resp =>
    rw [processResponse]
    by_cases hs : isSuccess resp.status = true
    · rw [if_pos hs]
      by_cases hct : strContains resp.contentType ("application/json") = true
      · rw [if_pos hct]
        match resp.json with
        | some j => rfl
        | none => rfl
      · rw [if_neg hct]
        rfl
    · rw [if_neg hs]
      rfl

theorem uap_http_normalized (m url : String) (b : Option Json)
    (p : Option (List (String × String))) (w : HttpWorld) (hm : m ≠ ("")) :
    uap_http m url b p w =
      if url = ("") then Except.error (UapError.invalidArgument ("method and url are required"))
      else processResponse (w ⟨normalizeMethod m, url, b, p⟩) := by
  by_cases hu : url = ("")
  · simp [uap_http, hm, hu]
  · simp [uap_http, hm, hu]

end Uap

/-! ## Claim theorems -/

namespace Uap

/-- C1: the confirmation gate is a pure boolean over actions, true if and
only if the `confirm` field of the action equals `user`; in particular it
is false when the field is absent (`none`) or holds any other value. -/
theorem requiresConfirmation_iff_confirm_user (action : Action) :
    requiresConfirmation action = true ↔ action.confirm = some ("user") := by
  simp [requiresConfirmation]

/-- C7: for every non-empty base URL, `uap_discover` fetches the root
document from the URL obtained by stripping every trailing slash from the
base URL and appending `/.well-known/uap`; the stripped base never ends in
a slash, so the composed URL never contains the doubled junction
`//.well-known/uap`; in particular the base URL `http://svc/` composes to
`http://svc/.well-known/uap`. -/
theorem uap_discover_wellknown_composition (base_url : String)
    (module_id : Option String) (w : GetWorld) (hbase : base_url ≠ ("")) :
    uap_discover base_url module_id w
      = discoverRoot (rstripSlash base_url ++ ("/.well-known/uap")) module_id w ∧
    ((rstripSlash base_url).data).getLast? ≠ some ('/') ∧
    (∀ t : String, wellKnownUrl base_url ≠ t ++ ("//.well-known/uap")) ∧
    wellKnownUrl ("http://svc/") = ("http://svc/.well-known/uap") := by
  refine ⟨?_, rstripSlash_no_trailing base_url, wellKnownUrl_not_double_slash base_url, by decide⟩
  simp [uap_discover, wellKnownUrl, hbase]

/-- Witness for C7 at the concrete base URL `http://svc/`. -/
theorem uap_discover_wellknown_composition_witness :
    uap_discover ("http://svc/") (some ("booking")) hotelWorld
      = discoverRoot (rstripSlash ("http://svc/") ++ ("/.well-known/uap"))
          (some ("booking")) hotelWorld ∧
    wellKnownUrl ("http://svc/") ≠ ("http://svc") ++ ("//.well-known/uap") ∧
    wellKnownUrl ("http://svc/") = ("http://svc/.well-known/uap") :=
  ⟨(uap_discover_wellknown_composition ("http://svc/") (some ("booking")) hotelWorld
      (by decide)).1,
   (uap_discover_wellknown_composition ("http://svc/") (some ("booking")) hotelWorld
      (by decide)).2.2.1 ("http://svc"),
   (uap_discover_wellknown_composition ("http://svc/") (some ("booking")) hotelWorld
      (by decide)).2.2.2⟩

end Uap

namespace Uap

/-- C2 counterexample: with a root document whose module entry carries the
relative href `booking.json` and a base URL `http://svc`, the code fetches
the verbatim string `booking.json` — a transport failure — instead of the
resolved URL `http://svc/booking.json`, so it does not return the two
documents the claim promises, while the spec-following variant does. -/
theorem uap_discover_relative_href_counterexample :
    uap_discover ("http://svc") (some ("booking")) relWorld
      = Except.error (UapError.networkError) ∧
    uap_discover_spec ("http://svc") (some ("booking")) relWorld
      = Except.ok (DiscoverResult.both relRootDoc relModuleDoc) ∧
    uap_discover ("http://svc") (some ("booking")) relWorld
      ≠ uap_discover_spec ("http://svc") (some ("booking")) relWorld := by
  refine ⟨rfl, rfl, ?_⟩
  intro h
  have h2 : (Except.error (UapError.networkError) : Except UapError DiscoverResult)
      = Except.ok (DiscoverResult.both relRootDoc relModuleDoc) := h
  exact Except.noConfusion h2

/-- C2 amended: for every root document whose module list contains an
entry with the requested module id, `uap_discover` fetches the URL string
found in that entry exactly as given — without resolving a relative href
against the base URL — and returns both the root document and the module
document served at that verbatim string. -/
theorem uap_discover_found_returns_both_verbatim_href
    (base_url mid : String) (w : GetWorld) (root m : Json) (href : String)
    (module_doc : Json) (ms : List Json)
    (hbase : base_url ≠ ("")) (hmid : mid ≠ (""))
    (hroot : getJson w (wellKnownUrl base_url) = Except.ok root)
    (hmods : modulesOf root = Except.ok ms)
    (hfind : findModule ms mid = Except.ok (some m))
    (hhref : moduleHref m = Except.ok href)
    (hmod : getJson w href = Except.ok module_doc) :
    uap_discover base_url (some mid) w
      = Except.ok (DiscoverResult.both root module_doc) := by
  simp [uap_discover, discoverRoot, hbase, hmid, hroot, hmods, hfind, hhref, hmod]

/-- Witness for the amended C2 against the hotel fixture, whose module
href is absolute. -/
theorem uap_discover_found_witness :
    uap_discover ("http://svc") (some ("booking")) hotelWorld
      = Except.ok (DiscoverResult.both hotelRoot (Hotel.booking_module ("http://svc"))) :=
  uap_discover_found_returns_both_verbatim_href ("http://svc") ("booking") hotelWorld
    hotelRoot hotelModuleEntry ("http://svc/.well-known/booking.json")
    (Hotel.booking_module ("http://svc")) [hotelModuleEntry]
    (by decide) (by decide) rfl rfl rfl rfl rfl

/-- C3: for every module id absent from the module list of a well-formed
root document, `uap_discover` returns the recoverable module-not-found
result carrying exactly the `id` entries of the modules of the root
document, and in particular no transport-level error. -/
theorem uap_discover_module_not_found_lists_ids
    (base_url mid : String) (w : GetWorld) (root : Json) (ms : List Json)
    (hbase : base_url ≠ ("")) (hmid : mid ≠ (""))
    (hroot : getJson w (wellKnownUrl base_url) = Except.ok root)
    (hmods : modulesOf root = Except.ok ms)
    (hobj : ∀ m ∈ ms, ∃ fs, m = Json.obj fs)
    (habsent : ∀ m ∈ ms, idMatches m mid = false) :
    uap_discover base_url (some mid) w
      = Except.ok (DiscoverResult.moduleNotFound mid
          (ms.map (fun m => Json.getKey m ("id")))) := by
  simp [uap_discover, discoverRoot, hbase, hmid, hroot, hmods,
    findModule_eq_none mid ms hobj habsent, moduleIds_eq_map ms hobj]

/-- Witness for C3: asking the hotel fixture for the absent module id
`spa` yields the not-found result listing the single available id
`booking`. -/
theorem uap_discover_module_not_found_witness :
    uap_discover ("http://svc") (some ("spa")) hotelWorld
      = Except.ok (DiscoverResult.moduleNotFound ("spa") [some (Json.str ("booking"))]) :=
  uap_discover_module_not_found_lists_ids ("http://svc") ("spa") hotelWorld
    hotelRoot [hotelModuleEntry] (by decide) (by decide) rfl rfl
    (by intro m hm; rw [List.mem_singleton] at hm; subst hm; exact ⟨_, rfl⟩)
    (by intro m hm; rw [List.mem_singleton] at hm; subst hm; decide)

end Uap

namespace Uap

/-- C4 counterexample: invoking the `booking.cancel` href of the demo
service with its `\x7bbooking_id\x7d` placeholder still unresolved does
not fail with `InvalidArgument` before the request: the request is
performed and the result is the 404 `HttpError` the service answers. -/
theorem uap_http_placeholder_counterexample :
    hasPlaceholder (Hotel.cancelHrefAt ("http://svc")) = true ∧
    uap_http ("POST") (Hotel.cancelHrefAt ("http://svc")) none none phWorld
      = Except.error (UapError.httpError 404) ∧
    isInvalidArgumentResult
      (uap_http ("POST") (Hotel.cancelHrefAt ("http://svc")) none none phWorld) = false := by
  refine ⟨by decide, rfl, rfl⟩

/-- C4 amended: `uap_http` performs no placeholder validation: even when
the URL still contains an unresolved `\x7bname\x7d` placeholder, the HTTP
request is performed with the URL passed through verbatim, and the result
is never `InvalidArgument` (which arises only for an empty method or
URL). -/
theorem uap_http_no_placeholder_check (method url : String) (b : Option Json)
    (p : Option (List (String × String))) (w : HttpWorld)
    (hm : method ≠ ("")) (hu : url ≠ ("")) (hp : hasPlaceholder url = true) :
    uap_http method url b p w = processResponse (w ⟨normalizeMethod method, url, b, p⟩) ∧
    isInvalidArgumentResult (uap_http method url b p w) = false := by
  have h := uap_http_normalized method url b p w hm
  rw [if_neg hu] at h
  exact ⟨h, by rw [h]; exact processResponse_not_invalidArgument _⟩

/-- Witness for the amended C4 at the placeholder-carrying cancel URL. -/
theorem uap_http_no_placeholder_check_witness :
    uap_http ("POST") (Hotel.cancelHrefAt ("http://svc")) none none phWorld
      = processResponse (phWorld
          ⟨normalizeMethod ("POST"), Hotel.cancelHrefAt ("http://svc"), none, none⟩) ∧
    isInvalidArgumentResult
      (uap_http ("POST") (Hotel.cancelHrefAt ("http://svc")) none none phWorld) = false :=
  uap_http_no_placeholder_check ("POST") (Hotel.cancelHrefAt ("http://svc")) none none
    phWorld (by decide) (by decide) (by decide)

/-- C5: for every successful invocation, when the content type of the
response contains `application/json` the result is the parsed JSON value
(returned re-serialized, since the tool returns a string), and otherwise
the result is the raw response text. -/
theorem uap_http_content_type_dispatch (method url : String) (b : Option Json)
    (p : Option (List (String × String))) (w : HttpWorld) (page : Page)
    (hm : method ≠ ("")) (hu : url ≠ (""))
    (hresp : w ⟨normalizeMethod method, url, b, p⟩ = some page)
    (hok : isSuccess page.status = true) :
    ((strContains page.contentType ("application/json") = true) →
      ∀ j : Json, page.json = some j → uap_http method url b p w = Except.ok (Json.dumps j)) ∧
    ((strContains page.contentType ("application/json") = false) →
      uap_http method url b p w = Except.ok page.text) := by
  have h := uap_http_normalized method url b p w hm
  rw [if_neg hu, hresp] at h
  constructor
  · intro hct j hj
    rw [h, processResponse, if_pos hok, if_pos hct, hj]
  · intro hct
    rw [h, processResponse, if_pos hok]
    rw [hct]
    simp only [Bool.false_eq_true, if_false]

/-- Witness for C5: the booking-creation scenario returns the parsed
booking object through the JSON branch, and a plain-text endpoint returns
its raw text. -/
theorem uap_http_content_type_dispatch_witness :
    uap_http ("POST") ("http://svc/bookings") (some exPostBody) none svcWorld
      = Except.ok (Json.dumps exBookingJson) ∧
    uap_http ("GET") ("http://svc/plain") none none svcWorld = Except.ok ("hello") :=
  ⟨(uap_http_content_type_dispatch ("POST") ("http://svc/bookings") (some exPostBody)
      none svcWorld ⟨200, ("application/json"), (""), some exBookingJson⟩
      (by decide) (by decide) rfl rfl).1 (by decide) exBookingJson rfl,
   (uap_http_content_type_dispatch ("GET") ("http://svc/plain") none none svcWorld
      ⟨200, ("text/plain; charset=utf-8"), ("hello"), none⟩
      (by decide) (by decide) rfl rfl).2 (by decide)⟩

/-- C6: for every invocation whose response carries an error status
(4xx/5xx), `uap_http` fails with the typed `HttpError` carrying exactly
that status — no other result is produced. -/
theorem uap_http_error_status (method url : String) (b : Option Json)
    (p : Option (List (String × String))) (w : HttpWorld) (page : Page)
    (hm : method ≠ ("")) (hu : url ≠ (""))
    (hresp : w ⟨normalizeMethod method, url, b, p⟩ = some page)
    (h4 : 400 ≤ page.status) (h5 : page.status ≤ 599) :
    uap_http method url b p w = Except.error (UapError.httpError page.status) := by
  have h := uap_http_normalized method url b p w hm
  rw [if_neg hu, hresp] at h
  rw [h, processResponse, isSuccess_eq_false_of_error page.status h4]
  simp only [Bool.false_eq_true, if_false]

/-- Witness for C6: a 404 endpoint yields `HttpError` with status 404. -/
theorem uap_http_error_status_witness :
    uap_http ("GET") ("http://svc/bookings/nope") none none notFoundWorld
      = Except.error (UapError.httpError 404) :=
  uap_http_error_status ("GET") ("http://svc/bookings/nope") none none notFoundWorld
    ⟨404, ("application/json"), (""),
      some (Json.obj [(("detail"), Json.str ("Booking not found"))])⟩
    (by decide) (by decide) rfl (by decide) (by decide)

/-- C8: `uap_http` is insensitive to the case and the surrounding
whitespace of the method: `get` and `GET` invoke identically, and more
generally any two non-empty method strings with the same uppercased and
stripped normal form invoke identically on every URL, body, parameter
list and world. -/
theorem uap_http_method_normalization :
    (∀ (url : String) (b : Option Json) (p : Option (List (String × String)))
       (w : HttpWorld), uap_http ("get") url b p w = uap_http ("GET") url b p w) ∧
    (∀ (m1 m2 url : String) (b : Option Json) (p : Option (List (String × String)))
       (w : HttpWorld), m1 ≠ ("") → m2 ≠ ("") →
       normalizeMethod m1 = normalizeMethod m2 →
       uap_http m1 url b p w = uap_http m2 url b p w) := by
  have key : ∀ (m1 m2 url : String) (b : Option Json)
      (p : Option (List (String × String))) (w : HttpWorld),
      m1 ≠ ("") → m2 ≠ ("") → normalizeMethod m1 = normalizeMethod m2 →
      uap_http m1 url b p w = uap_http m2 url b p w := by
    intro m1 m2 url b p w h1 h2 hn
    rw [uap_http_normalized m1 url b p w h1, uap_http_normalized m2 url b p w h2, hn]
  exact ⟨fun url b p w => key ("get") ("GET") url b p w (by decide) (by decide) (by decide),
    key⟩

/-- Witness for C8: the methods ` get ` and `GET` give the same result
against the collaborator world. -/
theorem uap_http_method_normalization_witness :
    uap_http (" get ") ("http://svc/plain") none none svcWorld
      = uap_http ("GET") ("http://svc/plain") none none svcWorld :=
  uap_http_method_normalization.2 (" get ") ("GET") ("http://svc/plain") none none
    svcWorld (by decide) (by decide) (by decide)

end Uap

namespace Hotel

/-- C9 counterexample: the combination `guests=0` does not return the room
list: the `ge=1` constraint on the `guests` query parameter rejects the
request with a validation error before the handler runs. -/
theorem search_rooms_guests_validation_counterexample :
    search_rooms none none (some 0) = Except.error (HttpFailure.validationError) ∧
    search_rooms none none (some 0) ≠ Except.ok ROOMS := by
  exact ⟨rfl, by decide⟩

/-- C9 amended: for every combination of the optional query parameters in
which `guests` is absent or at least 1 (the `ge=1` validation), the room
search returns the full fixed `ROOMS` list unchanged — `check_in`,
`check_out` and an accepted `guests` value have no effect on the result;
a `guests` value below 1 is rejected with a 422 validation error before
the handler runs. -/
theorem search_rooms_ignores_filters (check_in check_out : Option String)
    (guests : Option Int) (hg : guestsAccepted guests = true) :
    search_rooms check_in check_out guests = Except.ok ROOMS := by
  cases guests with
  | none => cases check_in <;> cases check_out <;> rfl
  | some g =>
    have h1 : (1 : Int) ≤ g := by simpa [guestsAccepted] using hg
    have h2 : ¬ (g < 1) := by omega
    cases check_in <;> cases check_out <;> simp [search_rooms, h2]

/-- Witness for the amended C9 at a fully populated parameter
combination. -/
theorem search_rooms_ignores_filters_witness :
    search_rooms (some ("2024-06-01")) (some ("2024-06-02")) (some 2) = Except.ok ROOMS :=
  search_rooms_ignores_filters (some ("2024-06-01")) (some ("2024-06-02")) (some 2)
    (by decide)

/-- C10: for every booking id present in the store, `cancel_booking`
returns and stores back a booking that differs from the stored one only in
its `status` field, now `canceled` — `id`, `room_id`, `check_in`,
`check_out` and `guest_name` are unchanged — and every other entry of the
store is untouched. -/
theorem cancel_booking_frame (bookings : BookingStore) (booking_id : String)
    (b : Booking) (hb : bookings booking_id = some b) :
    cancel_booking bookings booking_id
      = Except.ok (withStatus b ("canceled"),
          fun k => if k = booking_id then some (withStatus b ("canceled")) else bookings k) ∧
    (withStatus b ("canceled")).status = ("canceled") ∧
    (withStatus b ("canceled")).id = b.id ∧
    (withStatus b ("canceled")).room_id = b.room_id ∧
    (withStatus b ("canceled")).check_in = b.check_in ∧
    (withStatus b ("canceled")).check_out = b.check_out ∧
    (withStatus b ("canceled")).guest_name = b.guest_name ∧
    (∀ k, k ≠ booking_id →
      (if k = booking_id then some (withStatus b ("canceled")) else bookings k)
        = bookings k) := by
  refine ⟨?_, rfl, rfl, rfl, rfl, rfl, rfl, ?_⟩
  · rw [cancel_booking, hb]
  · intro k hk
    rw [if_neg hk]

/-- Witness for C10 on a concrete two-booking store: `bk-1` is returned
canceled and stored back canceled, `bk-2` is untouched. -/
theorem cancel_booking_frame_witness :
    canceledBookingOf (cancel_booking exStore ("bk-1"))
      = some (withStatus exBooking1 ("canceled")) ∧
    storeAfterAt (cancel_booking exStore ("bk-1")) ("bk-1")
      = some (withStatus exBooking1 ("canceled")) ∧
    storeAfterAt (cancel_booking exStore ("bk-1")) ("bk-2") = some exBooking2 := by
  have h := cancel_booking_frame exStore ("bk-1") exBooking1 (by decide)
  rw [h.1]
  refine ⟨rfl, ?_, ?_⟩ <;> decide

end Hotel
